import Mathlib

/-!
Shallow embedding of the request-admission pipeline of the supabase MCP
server (query validator, rate limiter, authentication middleware, tool
dispatch, JSON-RPC routing), translated from the Python sources under
`src/supabase_mcp_server/`, together with theorems settling the frozen
claims about it.

Strings are modelled over `List Char` / `String`; time instants are `Int`
seconds (Python `datetime` arithmetic is exact); Python dicts keyed by
strings are association lists.  Whitespace and word-character classes are
the ASCII fragments of Python's `str.strip` / regex `\s` / `\w` (all the
inputs involved are ASCII SQL and HTTP header text).
-/

namespace PyStr

/-- ASCII whitespace recognised by Python `str.strip()` and regex `\s`. -/
def isPySpace (c : Char) : Bool :=
  c = ' ' || c = '\t' || c = '\n' || c = '\x0d' || c = '\x0b' || c = '\x0c'

/-- Python `\w` (ASCII fragment): letters, digits, underscore. -/
def isWordChar (c : Char) : Bool := c.isAlphanum || c = '_'

def lstripList (l : List Char) : List Char := l.dropWhile isPySpace

def rstripList (l : List Char) : List Char := (l.reverse.dropWhile isPySpace).reverse

def stripList (l : List Char) : List Char := lstripList (rstripList l)

/-- Python `str.rstrip(c)` for a single character `c`. -/
def rstripCharList (c : Char) (l : List Char) : List Char :=
  (l.reverse.dropWhile (· = c)).reverse

def pyStrip (s : String) : String := ⟨stripList s.data⟩

def upperList (l : List Char) : List Char := l.map Char.toUpper

def upperStr (s : String) : String := ⟨upperList s.data⟩

/-- `re.search` of a literal pattern: does `p` occur as a contiguous sublist of `l`? -/
def containsSub : List Char → List Char → Bool
  | l@(_ :: rest), p => p.isPrefixOf l || containsSub rest p
  | [], p => p.isEmpty

def containsChar (l : List Char) (c : Char) : Bool := l.contains c

def countChar (l : List Char) (c : Char) : Nat := l.countP (· = c)

/-- Word-bounded occurrence of `w` at the head of `l`, where `prev` is the
character immediately before `l` (`none` at the start of the string):
regex `\bw\b`. -/
def wordHere (prev : Option Char) (l : List Char) (w : List Char) : Bool :=
  (match prev with | none => true | some c => !isWordChar c)
  && w.isPrefixOf l
  && (match l.drop w.length with | [] => true | c :: _ => !isWordChar c)

/-- Try `p` at every suffix of the input, tracking the preceding character. -/
def searchSuffixes (p : Option Char → List Char → Bool) : Option Char → List Char → Bool
  | prev, [] => p prev []
  | prev, c :: rest => p prev (c :: rest) || searchSuffixes p (some c) rest

/-- Like `searchSuffixes`, but the characters consumed before the match may
not include a newline: this is a regex `.*` gap (no DOTALL). -/
def searchGap (p : Option Char → List Char → Bool) : Option Char → List Char → Bool
  | prev, [] => p prev []
  | prev, c :: rest => p prev (c :: rest) || (decide (c ≠ '\n') && searchGap p (some c) rest)

/-- `re.search(rf"\b{w}\b", l)`. -/
def containsWord (l w : List Char) : Bool :=
  searchSuffixes (fun prev l2 => wordHere prev l2 w) none l

/-- Count of non-overlapping word-bounded occurrences of `w`
(`len(re.findall(rf"\b{w}\b", l))`; such occurrences can never overlap). -/
def countWordOcc : Option Char → List Char → List Char → Nat
  | _, [], _ => 0
  | prev, c :: rest, w =>
      (if wordHere prev (c :: rest) w then 1 else 0) + countWordOcc (some c) rest w

end PyStr

open PyStr

namespace QueryValidator

/-- `QueryRiskLevel` enum. -/
inductive QueryRiskLevel
  | safe
  | low
  | medium
  | high
  | dangerous
deriving Repr, DecidableEq

/-- The enum member's string `.value`. -/
def QueryRiskLevel.value : QueryRiskLevel → String
  | .safe => "safe"
  | .low => "low"
  | .medium => "medium"
  | .high => "high"
  | .dangerous => "dangerous"

/-- The severity rank intended by the spec's ordering
safe < low < medium < high < dangerous. -/
def severityRank : QueryRiskLevel → Nat
  | .safe => 0
  | .low => 1
  | .medium => 2
  | .high => 3
  | .dangerous => 4

/-- Python `<` on strings: lexicographic comparison of code points. -/
def strLtList : List Char → List Char → Bool
  | [], [] => false
  | [], _ :: _ => true
  | _ :: _, [] => false
  | a :: as, b :: bs =>
      if a.toNat < b.toNat then true
      else if b.toNat < a.toNat then false
      else strLtList as bs

def pyStrLt (a b : String) : Bool := strLtList a.data b.data

/-- Python `max(a, b, key=lambda x: x.value)`: compares the enum members by
their string values lexicographically and keeps the first on ties. -/
def pyMaxByValue (a b : QueryRiskLevel) : QueryRiskLevel :=
  if pyStrLt a.value b.value then b else a

/-- `ValidationResult` dataclass. -/
structure ValidationResult where
  is_valid : Bool
  risk_level : QueryRiskLevel
  issues : List String
  warnings : List String
  sanitized_query : Option String := none
  requires_confirmation : Bool := false
deriving Repr, DecidableEq

/-- State machine for `re.sub(r"--.*$", "", q, flags=re.MULTILINE)`: from
each `--` everything up to (not including) the next newline is removed. -/
def removeLineCommentsGo : Bool → List Char → List Char
  | _, [] => []
  | true, c :: rest => if c = '\n' then c :: removeLineCommentsGo false rest
                       else removeLineCommentsGo true rest
  | false, '-' :: '-' :: rest => removeLineCommentsGo true rest
  | false, c :: rest => c :: removeLineCommentsGo false rest

def removeLineComments (l : List Char) : List Char := removeLineCommentsGo false l

/-- Remainder of the input after the first `*/`, when there is one. -/
def findBlockClose : List Char → Option (List Char)
  | [] => none
  | '*' :: '/' :: rest => some rest
  | _ :: rest => findBlockClose rest

/-- `re.sub(r"/\*.*?\*/", "", q, flags=re.DOTALL)`: each `/*` paired with the
first following `*/` is removed; an unclosed `/*` is left in place.  The
fuel argument only discharges termination: every recursive call strictly
shortens the list, so with fuel = input length it is never exhausted. -/
def removeBlockCommentsGo : Nat → List Char → List Char
  | 0, l => l
  | fuel + 1, l =>
    match l with
    | '/' :: '*' :: rest =>
        (match findBlockClose rest with
         | some rest2 => removeBlockCommentsGo fuel rest2
         | none => '/' :: '*' :: rest)
    | c :: rest => c :: removeBlockCommentsGo fuel rest
    | [] => []

def removeBlockComments (l : List Char) : List Char := removeBlockCommentsGo l.length l

/-- `re.sub(r"\s+", " ", q)`: the flag records whether the previous input
character was whitespace (so a run collapses to a single space). -/
def collapseWsGo : Bool → List Char → List Char
  | _, [] => []
  | prevWs, c :: rest =>
      if isPySpace c then
        if prevWs then collapseWsGo true rest else ' ' :: collapseWsGo true rest
      else c :: collapseWsGo false rest

def collapseWs (l : List Char) : List Char := collapseWsGo false l

/-- `QueryValidator._normalize_query`. -/
def normalize_query (q : String) : String :=
  ⟨upperList (stripList (collapseWs (removeBlockComments (removeLineComments q.data))))⟩

end QueryValidator
namespace QueryValidator

/-- Pattern `(\b(union|or|and)\b.*\b(select|insert|update|delete)\b)`
(IGNORECASE, applied on the uppercased input). -/
def patUnionSelect (l : List Char) : Bool :=
  let u := upperList l
  searchSuffixes
    (fun prev l2 =>
      ["UNION".data, "OR".data, "AND".data].any fun w =>
        wordHere prev l2 w &&
        searchGap (fun pv l3 =>
            ["SELECT".data, "INSERT".data, "UPDATE".data, "DELETE".data].any
              (wordHere pv l3))
          w.getLast? (l2.drop w.length))
    none u

/-- Pattern `(;.*--)|(;.*#)|(;.*\/\*)`. -/
def patSemicolonComment (l : List Char) : Bool :=
  let u := upperList l
  searchSuffixes
    (fun _ l2 =>
      match l2 with
      | ';' :: rest =>
          searchGap (fun _ l3 =>
              "--".data.isPrefixOf l3 || "#".data.isPrefixOf l3 || "/*".data.isPrefixOf l3)
            (some ';') rest
      | _ => false)
    none u

/-- One branch of `(\bor\b.*=.*\bor\b)|(\band\b.*=.*\band\b)`. -/
def patWordEqWord (w : List Char) (l : List Char) : Bool :=
  searchSuffixes
    (fun prev l2 =>
      wordHere prev l2 w &&
      searchGap (fun _ l3 =>
          match l3 with
          | '=' :: rest => searchGap (fun pv l4 => wordHere pv l4 w) (some '=') rest
          | _ => false)
        w.getLast? (l2.drop w.length))
    none l

def patOrEqOr (l : List Char) : Bool :=
  let u := upperList l
  patWordEqWord "OR".data u || patWordEqWord "AND".data u

/-- Pattern `(char\(|ascii\(|substring\(|length\(|version\()`. -/
def patFuncProbe (l : List Char) : Bool :=
  let u := upperList l
  ["CHAR(".data, "ASCII(".data, "SUBSTRING(".data, "LENGTH(".data, "VERSION(".data].any
    (containsSub u ·)

def isHexDigitUpper (c : Char) : Bool := c.isDigit || ('A' ≤ c && c ≤ 'F')

/-- Pattern `(0x[0-9a-f]+)|(\\x[0-9a-f]+)`: `0x` or a literal backslash and
`x` followed by at least one hex digit. -/
def patHexEncoding (l : List Char) : Bool :=
  let u := upperList l
  searchSuffixes
    (fun _ l2 =>
      match l2 with
      | '0' :: 'X' :: c :: _ => isHexDigitUpper c
      | '\\' :: 'X' :: c :: _ => isHexDigitUpper c
      | _ => false)
    none u

/-- Pattern `(\bwaitfor\b|\bdelay\b)`. -/
def patTimeDelay (l : List Char) : Bool :=
  let u := upperList l
  containsWord u "WAITFOR".data || containsWord u "DELAY".data

/-- `QueryValidator._check_sql_injection`.  The pattern functions model the
six compiled IGNORECASE regexes in order; each hit appends the pattern's
source text to the issues. -/
def check_sql_injection (q : String) : List String :=
  let l := q.data
  (if patUnionSelect l then
    ["Potential SQL injection detected: (\\b(union|or|and)\\b.*\\b(select|insert|update|delete)\\b)"]
   else []) ++
  (if patSemicolonComment l then
    ["Potential SQL injection detected: (;.*--)|(;.*#)|(;.*\\/\\*)"]
   else []) ++
  (if patOrEqOr l then
    ["Potential SQL injection detected: (\\bor\\b.*=.*\\bor\\b)|(\\band\\b.*=.*\\band\\b)"]
   else []) ++
  (if patFuncProbe l then
    ["Potential SQL injection detected: (char\\(|ascii\\(|substring\\(|length\\(|version\\()"]
   else []) ++
  (if patHexEncoding l then
    ["Potential SQL injection detected: (0x[0-9a-f]+)|(\\\\x[0-9a-f]+)"]
   else []) ++
  (if patTimeDelay l then
    ["Potential SQL injection detected: (\\bwaitfor\\b|\\bdelay\\b)"]
   else []) ++
  (if countChar l '\'' % 2 ≠ 0 then ["Unmatched single quotes detected"] else []) ++
  (if containsSub l "--".data || containsSub l "/*".data then
    ["SQL comments detected - potential injection attempt"]
   else [])

/-- The `dangerous_keywords` set, in source (insertion) order.  Python set
iteration order is unspecified; none of the theorems below depend on the
relative order of several matched keywords. -/
def dangerousKeywords : List String :=
  ["DROP", "DELETE", "TRUNCATE", "ALTER", "CREATE", "GRANT", "REVOKE",
   "INSERT", "UPDATE", "REPLACE", "MERGE", "CALL", "EXEC", "EXECUTE",
   "SHUTDOWN", "KILL", "LOAD", "OUTFILE", "DUMPFILE", "INTO OUTFILE",
   "LOAD_FILE", "BENCHMARK", "SLEEP"]

/-- `QueryValidator._check_dangerous_operations`. -/
def check_dangerous_operations (q : String) : List String :=
  let l := q.data
  (dangerousKeywords.filterMap fun kw =>
    if containsWord l kw.data then some ("Dangerous operation detected: " ++ kw) else none) ++
  (if containsChar (rstripCharList ';' l) ';' then ["Multiple SQL statements detected"] else []) ++
  (if containsWord l "CALL".data || containsWord l "EXEC".data || containsWord l "EXECUTE".data then
    ["Stored procedure execution detected"]
   else [])

/-- The `protected_schemas` set, in source (insertion) order. -/
def protectedSchemas : List String :=
  ["information_schema", "pg_catalog", "pg_toast", "pg_temp",
   "pg_toast_temp", "public.pg_stat", "public.pg_settings"]

/-- `QueryValidator._check_protected_schemas`. -/
def check_protected_schemas (q : String) : List String :=
  protectedSchemas.filterMap fun sch =>
    if containsSub q.data (upperList sch.data) then
      some ("Access to protected schema detected: " ++ sch)
    else none

/-- First index at which `p` occurs as a sublist of `l`. -/
def firstSubIdx : List Char → List Char → Option Nat
  | l, p =>
    if p.isPrefixOf l then some 0
    else match l with
      | [] => none
      | _ :: rest => (firstSubIdx rest p).map (· + 1)

/-- Index of the last occurrence of `c` in `l`. -/
def lastIdxOf (l : List Char) (c : Char) : Option Nat :=
  match l.reverse.findIdx? (· = c) with
  | some i => some (l.length - 1 - i)
  | none => none

/-- Length of the greedy match of `.*SELECT.*\)` (no DOTALL) against the
characters following `(`: the match runs to the last `)` on the line that
still has a `SELECT` occurrence fitting before it. -/
def subqMatchLen (rest : List Char) : Option Nat :=
  let seg := rest.takeWhile (· ≠ '\n')
  match firstSubIdx seg "SELECT".data with
  | none => none
  | some f =>
    match lastIdxOf seg ')' with
    | none => none
    | some p => if f + 6 ≤ p then some (p + 1) else none

/-- `len(re.findall(r"\(.*SELECT.*\)", q))`: non-overlapping greedy matches,
scanning left to right.  Fuel discharges termination (each step consumes at
least one character). -/
def subqCountGo : Nat → List Char → Nat
  | 0, _ => 0
  | _ + 1, [] => 0
  | fuel + 1, '(' :: rest =>
      (match subqMatchLen rest with
       | some k => 1 + subqCountGo fuel (rest.drop k)
       | none => subqCountGo fuel rest)
  | fuel + 1, _ :: rest => subqCountGo fuel rest

def subqueryCount (l : List Char) : Nat := subqCountGo l.length l

/-- `QueryValidator._check_query_complexity`. -/
def check_query_complexity (q : String) : List String :=
  let l := q.data
  let subq := subqueryCount l
  let joins := countWordOcc none l "JOIN".data
  (if subq > 3 then ["High number of subqueries detected: " ++ toString subq] else []) ++
  (if joins > 5 then ["High number of joins detected: " ++ toString joins] else []) ++
  (if l.length > 5000 then ["Very long query detected - may impact performance"] else []) ++
  (if containsSub l "FROM".data && containsChar l ',' &&
      !containsSub l "WHERE".data && !containsSub l "JOIN".data then
    ["Potential cartesian product detected - missing WHERE clause"]
   else [])

/-- `QueryValidator._sanitize_query`: the trailing-semicolon collapse runs
first and only when the whitespace-stripped input already ends in `;`; then
comments are removed and whitespace is collapsed. -/
def sanitize_query (q : String) : String :=
  let l := q.data
  let l := if (rstripList l).getLast? = some ';' then rstripCharList ';' l ++ [';'] else l
  let l := removeLineComments l
  let l := removeBlockComments l
  ⟨stripList (collapseWs l)⟩

/-- `QueryValidator.validate_query`. -/
def validate_query (q : String) (allow_modifications : Bool) : ValidationResult :=
  if q = "" || pyStrip q = "" then
    { is_valid := false, risk_level := .safe, issues := ["Query cannot be empty"],
      warnings := [] }
  else
    let q := pyStrip q
    let normalized := normalize_query q
    let injectionIssues := check_sql_injection normalized
    let issues0 := injectionIssues
    let risk0 : QueryRiskLevel := if !injectionIssues.isEmpty then .dangerous else .safe
    let dangerousOps := check_dangerous_operations normalized
    let issues1 := if !dangerousOps.isEmpty && !allow_modifications then issues0 ++ dangerousOps else issues0
    let warnings1 := if !dangerousOps.isEmpty && allow_modifications then dangerousOps else []
    let risk1 :=
      if !dangerousOps.isEmpty then
        if allow_modifications then pyMaxByValue risk0 .high else .dangerous
      else risk0
    let requiresConfirmation := !dangerousOps.isEmpty && allow_modifications
    let schemaIssues := check_protected_schemas normalized
    let warnings2 := warnings1 ++ schemaIssues
    let risk2 := if !schemaIssues.isEmpty then pyMaxByValue risk1 .medium else risk1
    let complexityWarnings := check_query_complexity normalized
    let warnings3 := warnings2 ++ complexityWarnings
    let risk3 := if !complexityWarnings.isEmpty then pyMaxByValue risk2 .low else risk2
    let sanitized := if issues1.isEmpty then some (sanitize_query q) else none
    { is_valid := issues1.isEmpty, risk_level := risk3, issues := issues1,
      warnings := warnings3, sanitized_query := sanitized,
      requires_confirmation := requiresConfirmation }

/-- `QueryValidator.get_safe_query_suggestions`. -/
def get_safe_query_suggestions (q : String) : List String :=
  let normalized := (normalize_query q).data
  (if containsSub normalized "SELECT".data && !containsSub normalized "LIMIT".data then
    ["Consider adding a LIMIT clause to prevent large result sets"]
   else []) ++
  (if (containsSub normalized "UPDATE".data || containsSub normalized "DELETE".data) &&
      !containsSub normalized "WHERE".data then
    ["Add a WHERE clause to limit the scope of the operation"]
   else []) ++
  (if containsChar q.data '\'' then
    ["Consider using parameterized queries instead of string literals"]
   else []) ++
  (if containsSub normalized "JOIN".data || containsSub normalized "SUBQUERY".data ||
      containsSub normalized "UNION".data then
    ["Use EXPLAIN to analyze query performance"]
   else [])

end QueryValidator
namespace RateLimit

/-- `SecurityEvent` dataclass (timestamps are `Int` seconds). -/
structure SecurityEvent where
  timestamp : Int
  client_ip : String
  event_type : String
  details : String
  severity : String
  user_agent : Option String := none
  endpoint : Option String := none
deriving Repr, DecidableEq

/-- `RateLimitInfo` dataclass. -/
structure RateLimitInfo where
  requests : List Int := []
  blocked_until : Option Int := none
  total_requests : Nat := 0
  blocked_requests : Nat := 0
  first_request : Option Int := none
  last_request : Option Int := none
deriving Repr, DecidableEq

/-- The parts of a FastAPI `Request` the middleware inspects.  Header names
are stored lowercased (Starlette headers are case-insensitive). -/
structure Request where
  headers : List (String × String)
  client_host : Option String
  url_path : String
deriving Repr, DecidableEq

def headerGet (hs : List (String × String)) (k : String) : Option String :=
  (hs.find? (fun p => p.1 == k)).map (·.2)

/-- The mutable state of `SecurityMiddleware`: `_rate_limits` (a defaultdict),
`_blocked_ips` (a set) and `_security_events` (a deque with maxlen 1000). -/
structure SecState where
  rate_limits : List (String × RateLimitInfo) := []
  blocked_ips : List String := []
  security_events : List SecurityEvent := []
deriving Repr, DecidableEq

/-- Association-list version of dict assignment `d[k] = v`. -/
def updateAssoc (l : List (String × RateLimitInfo)) (k : String) (v : RateLimitInfo) :
    List (String × RateLimitInfo) :=
  if l.any (fun p => p.1 == k) then l.map (fun p => if p.1 == k then (k, v) else p)
  else l ++ [(k, v)]

def lookupInfo (s : SecState) (ip : String) : RateLimitInfo :=
  ((s.rate_limits.find? (fun p => p.1 == ip)).map (·.2)).getD {}

/-- Python `str.split(sep)` for a one-character separator. -/
def splitOnChar (c : Char) : List Char → List (List Char)
  | [] => [[]]
  | x :: rest =>
    match splitOnChar c rest with
    | r :: rs => if x = c then [] :: r :: rs else (x :: r) :: rs
    | [] => [[]]

/-- Decimal value of a digit string (`int(s)` on an all-digit string). -/
def digitsToNat (l : List Char) : Nat :=
  l.foldl (fun a c => a * 10 + (c.toNat - 48)) 0

/-- IPv4 octet as accepted by Python `ipaddress.ip_address`: 1-3 decimal
digits, no leading zero, value at most 255. -/
def octetValue (l : List Char) : Option Nat :=
  if l.length = 0 || l.length > 3 || !l.all Char.isDigit then none
  else if l.length > 1 && l.head? = some '0' then none
  else if digitsToNat l ≤ 255 then some (digitsToNat l) else none

/-- `ipaddress.ip_address` restricted to IPv4 dotted-quad form (IPv6
literals are not modelled; none of the configured trusted networks nor the
inputs of the claims are IPv6). -/
def parseIPv4 (s : String) : Option (Nat × Nat × Nat × Nat) :=
  match splitOnChar '.' s.data with
  | [a, b, c, d] =>
    match octetValue a, octetValue b, octetValue c, octetValue d with
    | some va, some vb, some vc, some vd => some (va, vb, vc, vd)
    | _, _, _, _ => none
  | _ => none

/-- `SecurityMiddleware._is_trusted_ip`: membership in the configured
trusted networks 127.0.0.0/8, 10.0.0.0/8, 172.16.0.0/12, 192.168.0.0/16. -/
def is_trusted_ip (ip : String) : Bool :=
  match parseIPv4 ip with
  | none => false
  | some (a, b, _, _) =>
      a = 127 || a = 10 || (a = 172 && 16 ≤ b && b ≤ 31) || (a = 192 && b = 168)

/-- The header priority list of `_get_client_ip`. -/
def headersToCheck : List String :=
  ["x-forwarded-for", "x-real-ip", "x-forwarded", "x-cluster-client-ip",
   "forwarded-for", "forwarded"]

/-- The header-scanning loop of `_get_client_ip`: for each candidate header
present, take the first comma-separated entry, strip it, and accept it when
it parses as an IP address; otherwise continue with the next header. -/
def headerClientIp : List String → List (String × String) → Option String
  | [], _ => none
  | h :: rest, hs =>
    match headerGet hs h with
    | some v =>
        let ip : String := ⟨stripList ((splitOnChar ',' v.data).headD [])⟩
        if (parseIPv4 ip).isSome then some ip else headerClientIp rest hs
    | none => headerClientIp rest hs

/-- `SecurityMiddleware._get_client_ip`. -/
def get_client_ip (req : Request) : String :=
  (headerClientIp headersToCheck req.headers).getD (req.client_host.getD "unknown")

/-- Append to the `_security_events` deque (maxlen 1000: oldest dropped). -/
def appendEvent (evs : List SecurityEvent) (e : SecurityEvent) : List SecurityEvent :=
  let l := evs ++ [e]
  l.drop (l.length - 1000)

/-- `SecurityMiddleware._log_security_event`. -/
def log_security_event (s : SecState) (client_ip event_type details severity : String)
    (req : Request) (now : Int) : SecState :=
  let e : SecurityEvent :=
    { timestamp := now, client_ip := client_ip, event_type := event_type,
      details := details, severity := severity,
      user_agent := headerGet req.headers "user-agent",
      endpoint := some req.url_path }
  { s with security_events := appendEvent s.security_events e }

/-- Timing constants of the source: window 1 min, block 15 min, 5 violations. -/
def rateLimitWindowSecs : Int := 60
def blockDurationSecs : Int := 900
def maxViolationsBeforeBlock : Nat := 5

/-- Outcome of `check_rate_limit`: normal return, the HTTP 429 raised for a
blocked IP (with the `Retry-After` header value), or the `RateLimitExceeded`
exception (with its `retry_after`). -/
inductive RateLimitOutcome
  | ok
  | blockedIp (retry_after : Int)
  | rateLimited (retry_after : Int)
deriving Repr, DecidableEq

/-- `SecurityMiddleware.check_rate_limit`, as a function of the state, the
request and the current instant; `maxReq` is `settings.rate_limit_per_minute`. -/
def check_rate_limit (maxReq : Nat) (s : SecState) (req : Request) (now : Int) :
    RateLimitOutcome × SecState :=
  let client_ip := get_client_ip req
  if is_trusted_ip client_ip then (.ok, s)
  else if s.blocked_ips.contains client_ip then
    (.blockedIp blockDurationSecs,
     log_security_event s client_ip "blocked_request" "Request from blocked IP" "medium" req now)
  else
    let info := lookupInfo s client_ip
    match info.blocked_until with
    | some bu =>
      if now < bu then
        let remaining := bu - now
        (.rateLimited remaining,
         log_security_event { s with rate_limits := updateAssoc s.rate_limits client_ip info }
           client_ip "rate_limit_blocked"
           ("Request blocked, " ++ toString remaining ++ "s remaining") "low" req now)
      else checkWindow client_ip info s req now
    | none => checkWindow client_ip info s req now
where
  /-- The window-pruning and counting tail of `check_rate_limit`. -/
  checkWindow (client_ip : String) (info : RateLimitInfo) (s : SecState)
      (req : Request) (now : Int) : RateLimitOutcome × SecState :=
    let cutoff := now - rateLimitWindowSecs
    let pruned := info.requests.dropWhile (· < cutoff)
    if pruned.length ≥ maxReq then
      let violations := info.blocked_requests + 1
      let blocksNow := violations ≥ maxViolationsBeforeBlock
      let info2 : RateLimitInfo :=
        { info with requests := pruned, blocked_requests := violations,
                    blocked_until := if blocksNow then some (now + blockDurationSecs)
                                     else info.blocked_until }
      let s2 := { s with rate_limits := updateAssoc s.rate_limits client_ip info2,
                         blocked_ips := if blocksNow then s.blocked_ips ++ [client_ip]
                                        else s.blocked_ips }
      let s3 := if blocksNow then
          log_security_event s2 client_ip "ip_blocked"
            "IP blocked for 900.0s due to repeated violations" "high" req now
        else s2
      let s4 := log_security_event s3 client_ip "rate_limit_exceeded"
          ("Rate limit exceeded: " ++ toString pruned.length ++ "/" ++ toString maxReq)
          "medium" req now
      (.rateLimited rateLimitWindowSecs, s4)
    else
      let info2 : RateLimitInfo :=
        { info with requests := pruned ++ [now],
                    total_requests := info.total_requests + 1,
                    last_request := some now,
                    first_request := match info.first_request with
                                     | none => some now
                                     | some t => some t }
      (.ok, { s with rate_limits := updateAssoc s.rate_limits client_ip info2 })

end RateLimit
namespace Auth

/-- `AuthContext` dataclass.  The permission dict is an association list. -/
structure AuthContext where
  user_id : Option String := none
  email : Option String := none
  role : Option String := none
  is_authenticated : Bool := false
  auth_method : Option String := none
  permissions : Option (List (String × Bool)) := none
  expires_at : Option Int := none
deriving Repr, DecidableEq

/-- `AuthenticationError` (message and HTTP status code). -/
structure AuthError where
  message : String
  status_code : Nat := 401
deriving Repr, DecidableEq

/-- `dict.get(k, False)` on a permission dict. -/
def permGet (ps : List (String × Bool)) (k : String) : Bool :=
  ((ps.find? (fun p => p.1 == k)).map (·.2)).getD false

/-- The permission looked up on a context (`False` when the dict is absent). -/
def ctxPermission (ctx : AuthContext) (k : String) : Bool :=
  match ctx.permissions with
  | none => false
  | some ps => permGet ps k

/-- `AuthenticationMiddleware.require_permission`.  The Python guard is
`not auth_context.permissions or not ....get(permission, False)`: a missing
or empty dict is falsy, so it denies just like a dict lacking the key. -/
def require_permission (ctx : AuthContext) (permission : String) : Except AuthError Unit :=
  if !ctx.is_authenticated then
    .error { message := "Authentication required", status_code := 401 }
  else if (match ctx.permissions with | none => true | some ps => ps.isEmpty) ||
          !ctxPermission ctx permission then
    .error { message := "Permission '" ++ permission ++ "' required", status_code := 403 }
  else .ok ()

/-- `AuthenticationMiddleware.require_authentication`. -/
def require_authentication (ctx : AuthContext) : Except AuthError Unit :=
  if !ctx.is_authenticated then
    .error { message := "Authentication required", status_code := 401 }
  else .ok ()

/-- The claims `jwt.decode` extracts from a token (signature never verified). -/
structure JwtClaims where
  sub : Option String := none
  email : Option String := none
  role : Option String := none
  exp : Option Int := none
deriving Repr, DecidableEq

/-- `AuthenticationMiddleware._get_role_permissions`. -/
def get_role_permissions (role : String) : List (String × Bool) :=
  if role = "anon" then [("read", true), ("write", false), ("admin", false)]
  else if role = "authenticated" then [("read", true), ("write", true), ("admin", false)]
  else if role = "service_role" then [("read", true), ("write", true), ("admin", true)]
  else [("read", false), ("write", false), ("admin", false)]

/-- `_token_cache`: token string to (context, cached-at instant). -/
abbrev TokenCache := List (String × AuthContext × Int)

def cacheTtlSecs : Int := 300

/-- `AuthenticationMiddleware._get_from_cache`: a fresh entry is returned as
is (no expiry check of the context itself); a stale entry is deleted. -/
def get_from_cache (cache : TokenCache) (token : String) (now : Int) :
    Option AuthContext × TokenCache :=
  match List.find? (fun p => p.1 == token) cache with
  | some (_, ctx, cachedAt) =>
      if now - cachedAt < cacheTtlSecs then (some ctx, cache)
      else (none, List.filter (fun p => !(p.1 == token)) cache)
  | none => (none, cache)

/-- Dict assignment `_token_cache[token] = (context, now)`. -/
def cacheInsert (cache : TokenCache) (token : String) (ctx : AuthContext) (now : Int) :
    TokenCache :=
  if List.any cache (fun p => p.1 == token) then
    List.map (fun p => if p.1 == token then (token, ctx, now) else p) cache
  else cache ++ [(token, ctx, now)]

/-- `AuthenticationMiddleware._set_cache`: insert, then (only when more than
1000 entries) drop the entries older than the TTL. -/
def set_cache (cache : TokenCache) (token : String) (ctx : AuthContext) (now : Int) :
    TokenCache :=
  let cache1 := cacheInsert cache token ctx now
  if 1000 < List.length cache1 then
    List.filter (fun p => !(p.2.2 < now - cacheTtlSecs)) cache1
  else cache1

/-- The context `_authenticate_jwt_token` builds from decoded claims (Python
truthiness: an `exp` of 0 is falsy, so it yields no `expires_at`). -/
def mkJwtContext (claims : JwtClaims) (uid : String) : AuthContext :=
  let role := claims.role.getD "authenticated"
  { user_id := some uid, email := claims.email, role := some role,
    is_authenticated := true, auth_method := some "jwt",
    permissions := some (get_role_permissions role),
    expires_at := match claims.exp with
                  | some e => if e ≠ 0 then some e else none
                  | none => none }

/-- `AuthenticationMiddleware._authenticate_jwt_token`.  `decode` stands for
`jwt.decode(token, options={"verify_signature": False})` (it may fail with
`InvalidTokenError`); the cache is consulted before anything else. -/
def authenticate_jwt_token (decode : String → Except Unit JwtClaims)
    (cache : TokenCache) (token : String) (now : Int) :
    Option AuthContext × TokenCache :=
  if token = "" then (none, cache)
  else
    match get_from_cache cache token now with
    | (some ctx, cache1) => (some ctx, cache1)
    | (none, cache1) =>
      match decode token with
      | .error _ => (none, cache1)
      | .ok claims =>
        let uid := claims.sub.getD ""
        if uid = "" then (none, cache1)
        else if (match claims.exp with | some e => e ≠ 0 && e < now | none => false) then
          (none, cache1)
        else
          let ctx := mkJwtContext claims uid
          (some ctx, set_cache cache1 token ctx now)

end Auth
namespace Handler

open QueryValidator

/-- `ToolResult`: content items are the text payloads of the
`{"type": "text", "text": ...}` dicts the handler builds. -/
structure ToolResult where
  content : List String
  is_error : Bool := false
deriving Repr, DecidableEq

/-- The arguments `_handle_query_database` reads out of the tool call
(`arguments.get` with the defaults of the source). -/
structure QueryArgs where
  query : String := ""
  params : List String := []
  force_execute : Bool := false
deriving Repr, DecidableEq

/-- `QueryResult` rows/columns as used by the success formatting.  The float
`execution_time` is kept as its preformatted display string together with a
Bool for the `> 1.0` comparison; no claim depends on it. -/
structure DbResult where
  rows : List (List (String × String)) := []
  row_count : Nat := 0
  columns : List String := []
  execution_time_text : String := "0.000"
  execution_time_over_1s : Bool := false
deriving Repr, DecidableEq

def joinLines (l : List String) : String := String.intercalate "\n" l

def bullets (l : List String) : String := joinLines (l.map (fun s => "• " ++ s))

/-- The first content item of the invalid-query rejection. -/
def validationFailedText (issues : List String) : String :=
  "❌ Query validation failed:\n" ++ bullets issues

def rowGet (row : List (String × String)) (col : String) : String :=
  (((row.find? (fun p => p.1 == col)).map (·.2)).getD "").take 50

/-- The results-table text of the success branch (header, dashes separator,
first 100 rows with each value truncated to 50 characters). -/
def tableText (res : DbResult) : String :=
  let header := String.intercalate " | " res.columns
  let separator := String.intercalate " | " (res.columns.map (fun c => ⟨List.replicate c.length '-'⟩))
  let displayRows := res.rows.take 100
  let rowsText := displayRows.foldl
    (fun acc row => acc ++ String.intercalate " | " (res.columns.map (rowGet row)) ++ "\n") ""
  let base := "\n📊 Results:\n" ++ header ++ "\n" ++ separator ++ "\n" ++ rowsText
  if res.rows.length > 100 then
    base ++ "\n... and " ++ toString (res.rows.length - 100) ++ " more rows"
  else base

/-- The content items appended by the execute branch after a successful
database call. -/
def querySuccessContent (v : ValidationResult) (res : DbResult) : List String :=
  ["✅ Query executed successfully in " ++ res.execution_time_text ++ "s"] ++
  (if v.risk_level.value ≠ "safe" then
    ["🔒 Risk level: " ++ upperStr v.risk_level.value]
   else []) ++
  (if res.rows ≠ [] then
    (if res.columns ≠ [] then [tableText res]
     else ["📊 Query returned " ++ toString res.row_count ++ " rows"])
   else ["📊 Query completed. Rows affected: " ++ toString res.row_count]) ++
  (if res.execution_time_over_1s then
    ["⏱️ Note: Query took " ++ res.execution_time_text ++ "s - consider optimization"]
   else [])

/-- `SupabaseMCPHandler._handle_query_database`, with the database
collaborator `db` passed in (`database_service.execute_query`; an `.error`
is an exception caught by the handler's `except` block).  The second
component of the result records the queries actually sent to the database
layer, in order. -/
def handle_query_database (db : String → List String → Except String DbResult)
    (enable_query_validation : Bool) (args : QueryArgs) :
    ToolResult × List (String × List String) :=
  if pyStrip args.query = "" then
    ({ content := ["Error: Query cannot be empty"], is_error := true }, [])
  else
    let validation := validate_query args.query enable_query_validation
    if !validation.is_valid then
      let suggestions := get_safe_query_suggestions args.query
      let content := [validationFailedText validation.issues] ++
        (if !suggestions.isEmpty then ["💡 Suggestions:\n" ++ bullets suggestions] else [])
      ({ content := content, is_error := true }, [])
    else
      let warn := if !validation.warnings.isEmpty then
          ["⚠️ Warnings:\n" ++ bullets validation.warnings]
        else []
      if validation.requires_confirmation && !args.force_execute then
        ({ content := warn ++
            ["🚨 This query requires confirmation due to its risk level: " ++
               upperStr validation.risk_level.value,
             "To execute this query, add 'force_execute': true to your arguments."],
           is_error := false }, [])
      else
        let final_query := match validation.sanitized_query with
          | some sq => if sq = "" then args.query else sq
          | none => args.query
        match db final_query args.params with
        | .ok res =>
            ({ content := warn ++ querySuccessContent validation res, is_error := false },
             [(final_query, args.params)])
        | .error e =>
            ({ content := ["❌ Database query failed: " ++ e], is_error := true },
             [(final_query, args.params)])

end Handler

namespace MCP

/-- `MCPError` (the `data` dict `{"method": m}` is kept as the method). -/
structure MCPError where
  code : Int
  message : String
  data : Option String := none
deriving Repr, DecidableEq

/-- `MCPRequest` (the params flow only into the per-method handlers, which
are abstracted as the `env` argument of `handle_request`). -/
structure MCPRequest where
  id : String
  method : String
deriving Repr, DecidableEq

structure MCPResponse where
  id : String
  result : Option String := none
  error : Option MCPError := none
deriving Repr, DecidableEq

/-- The method names `MCPHandler.handle_request` routes. -/
def knownMethods : List String :=
  ["initialize", "tools/list", "tools/call", "resources/list", "resources/read"]

/-- `MCPHandler.handle_request`: `env` abstracts the five `_handle_*`
bodies (an `.error` is an exception raised there).  An unrecognised method
raises `ValueError(f"Unknown method: ...")`, which the blanket `except`
turns into an error response with code -32603. -/
def handle_request (env : MCPRequest → Except String String) (req : MCPRequest) :
    MCPResponse :=
  if knownMethods.contains req.method then
    match env req with
    | .ok r => { id := req.id, result := some r }
    | .error e => { id := req.id, error := some { code := -32603, message := e, data := some req.method } }
  else
    { id := req.id,
      error := some { code := -32603, message := "Unknown method: " ++ req.method,
                      data := some req.method } }

/-- `MCPServer.process_message`: `parse` abstracts
`deserialize_mcp_message` (which raises `ValueError` on malformed input);
`handle_request` never raises, so only a parse failure reaches the
`except ValueError` branch producing the -32700 response. -/
def process_message (parse : String → Except String MCPRequest)
    (env : MCPRequest → Except String String) (data : String) : MCPResponse :=
  match parse data with
  | .ok req => handle_request env req
  | .error e =>
      { id := "unknown", error := some { code := -32700, message := "Parse error: " ++ e } }

end MCP

namespace Server

/-- The admission-relevant steps of the `/mcp/tools` route body
(`MCPServer._setup_routes`, `list_tools`), in source order:
`check_rate_limit`, `check_security_threats`, `authenticate_request`, then
the tool body.  (`security_middleware.initialize()` only starts the cleanup
task and is omitted.) -/
inductive PipelineStep
  | rateLimitCheck
  | threatScan
  | authenticateStep
  | listToolsBody
deriving Repr, DecidableEq

instance : BEq PipelineStep := ⟨fun a b => decide (a = b)⟩

/-- The trace of steps the route executes: the statements run in order
inside one `try` block, so a step that raises aborts the ones after it.
`check_security_threats` never raises; `rateLimitFails` is a raising
`check_rate_limit` and `authFails` a raising `authenticate_request`. -/
def listToolsTrace (rateLimitFails : Bool) (authFails : Bool) : List PipelineStep :=
  if rateLimitFails then [.rateLimitCheck]
  else if authFails then [.rateLimitCheck, .threatScan, .authenticateStep]
  else [.rateLimitCheck, .threatScan, .authenticateStep, .listToolsBody]

end Server
open QueryValidator RateLimit Auth Handler MCP Server

/-! ## Shared helper lemmas -/

theorem find?_append_none {α : Type} (p : α → Bool) (l1 l2 : List α)
    (h : l1.find? p = none) : (l1 ++ l2).find? p = l2.find? p := by
  induction l1 with
  | nil => simp
  | cons x xs ih =>
    rw [List.find?] at h
    cases hx : p x with
    | true => rw [hx] at h; simp at h
    | false =>
      rw [hx] at h
      simp only [List.cons_append, List.find?, hx]
      exact ih h

theorem validate_query_strip_empty (q : String) (e : Bool) (h : pyStrip q = "") :
    (validate_query q e).is_valid = false := by
  simp [validate_query, h]

/-! ## Claims -/

/-- C1: for `validate_query "DELETE FROM x" true` the code keeps the result
valid, puts the finding in warnings and sets requires_confirmation, but the
risk level stays `safe` instead of being raised to at least `high`: the
`max(risk_level, HIGH, key=lambda x: x.value)` call compares the enum values
as strings, and "safe" is lexicographically larger than "high".  The
severity ordering of the spec (and of the repo's own test
`test_validate_dangerous_delete_query`, which asserts `HIGH`) is violated. -/
theorem c1_delete_allow_modifications_keeps_risk_safe :
    validate_query "DELETE FROM x" true =
      { is_valid := true, risk_level := .safe, issues := [],
        warnings := ["Dangerous operation detected: DELETE"],
        sanitized_query := some "DELETE FROM x", requires_confirmation := true }
    ∧ pyMaxByValue QueryRiskLevel.safe QueryRiskLevel.high = QueryRiskLevel.safe
    ∧ severityRank QueryRiskLevel.safe < severityRank QueryRiskLevel.high := by
  refine ⟨by decide, by decide, by decide⟩

/-- C2: `validate_query "SELECT * FROM users WHERE id=1 OR 1=1 --" ...`
returns a fully valid, `safe`, issue-free result for both values of
`allow_modifications`: `_normalize_query` strips the `--` comment before
`_check_sql_injection` runs, so the comment check can never fire on line
comments, and none of the six injection regexes matches the remaining text.
The claim (and the repo's own tests `test_validate_sql_injection_attempt`
and `test_validate_query_with_comments`) say invalid / dangerous / an
injection issue. -/
theorem c2_injection_comment_query_validates_as_safe :
    validate_query "SELECT * FROM users WHERE id=1 OR 1=1 --" false =
      { is_valid := true, risk_level := .safe, issues := [], warnings := [],
        sanitized_query := some "SELECT * FROM users WHERE id=1 OR 1=1",
        requires_confirmation := false }
    ∧ validate_query "SELECT * FROM users WHERE id=1 OR 1=1 --" true =
      { is_valid := true, risk_level := .safe, issues := [], warnings := [],
        sanitized_query := some "SELECT * FROM users WHERE id=1 OR 1=1",
        requires_confirmation := false } := by
  refine ⟨by decide, by decide⟩

/-- C3: `_sanitize_query` collapses trailing semicolons before removing
comments, so for a query whose semicolons are followed by a comment the
output ends in two semicolons and re-sanitizing changes it: sanitization is
neither exactly-one-trailing-semicolon nor idempotent (the repo's own test
`test_sanitize_query` asserts at most one semicolon and fails likewise). -/
theorem c3_sanitize_not_idempotent_on_comment_after_semicolons :
    sanitize_query "SELECT 1;; --x" = "SELECT 1;;"
    ∧ sanitize_query (sanitize_query "SELECT 1;; --x") = "SELECT 1;"
    ∧ sanitize_query (sanitize_query "SELECT 1;; --x") ≠ sanitize_query "SELECT 1;; --x" := by
  refine ⟨by decide, by decide, by decide⟩

/-- C4 counterexample: an IP in the blocked set whose `blocked_until` is 60
seconds away still gets a Blocked outcome carrying 900 (the full block
duration), not the remaining 60 seconds: the claim's "retry-after = remaining
seconds until the block's expiry" is false. -/
theorem c4_blocked_retry_after_not_remaining :
    (check_rate_limit 100
      { rate_limits := [("203.0.113.9", { blocked_until := some 160 })],
        blocked_ips := ["203.0.113.9"], security_events := [] }
      { headers := [], client_host := some "203.0.113.9", url_path := "/mcp/tools" }
      100).1 = .blockedIp 900
    ∧ (160 : Int) - 100 = 60
    ∧ (900 : Int) ≠ 60 := by
  refine ⟨by decide, by decide, by decide⟩

/-- C4 (amended): for every non-trusted client IP in the blocked set, every
check during the block fails with the Blocked outcome regardless of the
IP's window state, carrying as retry-after the full configured block
duration (900 s) rather than the remaining time, and a `blocked_request`
event of medium severity is appended; the rate-limit and blocked-IP state
are left unchanged. -/
theorem c4_blocked_ip_full_duration_and_event (maxReq : Nat) (s : SecState)
    (req : Request) (now : Int)
    (htrust : is_trusted_ip (get_client_ip req) = false)
    (hblocked : s.blocked_ips.contains (get_client_ip req) = true) :
    (check_rate_limit maxReq s req now).1 = .blockedIp blockDurationSecs
    ∧ (check_rate_limit maxReq s req now).2.rate_limits = s.rate_limits
    ∧ (check_rate_limit maxReq s req now).2.blocked_ips = s.blocked_ips
    ∧ (check_rate_limit maxReq s req now).2.security_events =
        appendEvent s.security_events
          { timestamp := now, client_ip := get_client_ip req,
            event_type := "blocked_request", details := "Request from blocked IP",
            severity := "medium", user_agent := headerGet req.headers "user-agent",
            endpoint := some req.url_path } := by
  have hb : get_client_ip req ∈ s.blocked_ips := by
    simpa using hblocked
  simp [check_rate_limit, htrust, hb, log_security_event]

/-- C4 witness: a concrete blocked, non-trusted IP gets `.blockedIp 900`. -/
theorem c4_blocked_ip_full_duration_witness :
    (check_rate_limit 100
      { rate_limits := [], blocked_ips := ["198.51.100.4"], security_events := [] }
      { headers := [], client_host := some "198.51.100.4", url_path := "/mcp/tools" }
      50).1 = .blockedIp 900 := by
  have h := c4_blocked_ip_full_duration_and_event 100
    { rate_limits := [], blocked_ips := ["198.51.100.4"], security_events := [] }
    { headers := [], client_host := some "198.51.100.4", url_path := "/mcp/tools" }
    50 (by decide) (by decide)
  exact h.1
/-- C5 counterexample: in the `/mcp/tools` route the rate-limit check runs
first; when it raises, the threat scan never runs, and even on passing
requests `check_rate_limit` precedes `check_security_threats` — so the
claim's "scan runs before the rate-limit check and on every request" is
false. -/
theorem c5_threat_scan_not_first_and_skipped :
    listToolsTrace true false = [PipelineStep.rateLimitCheck]
    ∧ (listToolsTrace true false).contains PipelineStep.threatScan = false
    ∧ List.indexOf PipelineStep.rateLimitCheck (listToolsTrace false false) <
        List.indexOf PipelineStep.threatScan (listToolsTrace false false) := by
  decide

/-- C5 (amended): the rate-limit check runs first on every request; the
threat scan runs only on (and on all) requests that pass the rate-limit
check and before authentication; authentication runs after both and only
when the rate-limit check passed. -/
theorem c5_rate_limit_first_then_scan_then_auth (rl auth : Bool) :
    (listToolsTrace rl auth).head? = some .rateLimitCheck
    ∧ (listToolsTrace rl auth).contains .threatScan = !rl
    ∧ (listToolsTrace rl auth).contains .authenticateStep = !rl
    ∧ List.indexOf PipelineStep.threatScan (listToolsTrace rl auth) ≤
        List.indexOf PipelineStep.authenticateStep (listToolsTrace rl auth)
    ∧ List.indexOf PipelineStep.authenticateStep (listToolsTrace rl auth) ≤
        List.indexOf PipelineStep.listToolsBody (listToolsTrace rl auth) := by
  cases rl <;> cases auth <;> decide

/-- C6: `_handle_query_database` rejects an invalid validation result with
the issue list and never calls the database; a confirmation-required result
without `force_execute` returns a non-error result without executing;
otherwise exactly one database call is made, with the sanitized query text
when it is non-empty and the original text otherwise (the Python
`validation.sanitized_query or query` treats an empty sanitized string as
absent). -/
theorem c6_query_database_gating (db : String → List String → Except String DbResult)
    (enable : Bool) (args : QueryArgs) :
    ((validate_query args.query enable).is_valid = false →
       (handle_query_database db enable args).1.is_error = true
       ∧ (handle_query_database db enable args).2 = []
       ∧ (pyStrip args.query ≠ "" →
            (handle_query_database db enable args).1.content.head? =
              some (validationFailedText (validate_query args.query enable).issues)))
    ∧ ((validate_query args.query enable).is_valid = true →
        (validate_query args.query enable).requires_confirmation = true →
        args.force_execute = false →
          (handle_query_database db enable args).1.is_error = false
          ∧ (handle_query_database db enable args).2 = [])
    ∧ ((validate_query args.query enable).is_valid = true →
        ((validate_query args.query enable).requires_confirmation = false ∨
          args.force_execute = true) →
          (handle_query_database db enable args).2 =
            [(match (validate_query args.query enable).sanitized_query with
              | some sq => if sq = "" then args.query else sq
              | none => args.query, args.params)]) := by
  by_cases hq : pyStrip args.query = ""
  · have hv := validate_query_strip_empty args.query enable hq
    refine ⟨fun _ => ⟨?_, ?_, fun hne => absurd hq hne⟩,
      fun h1 => absurd hv (by simp [h1]), fun h1 => absurd hv (by simp [h1])⟩
    · simp [handle_query_database, hq]
    · simp [handle_query_database, hq]
  · refine ⟨fun hv => ?_, fun hv hc hf => ?_, fun hv hcf => ?_⟩
    · simp [handle_query_database, hq, hv, validationFailedText]
    · simp [handle_query_database, hq, hv, hc, hf]
    · rcases hcf with hc | hf
      · simp only [handle_query_database, hq, hv]
        simp [hc]
        cases db (match (validate_query args.query enable).sanitized_query with
                  | some sq => if sq = "" then args.query else sq
                  | none => args.query) args.params <;> simp
      · simp only [handle_query_database, hq, hv]
        simp [hf]
        cases db (match (validate_query args.query enable).sanitized_query with
                  | some sq => if sq = "" then args.query else sq
                  | none => args.query) args.params <;> simp

/-- C6 witness: a rejected `DROP`, a `DELETE` needing confirmation, and an
executed `SELECT`, each at a concrete database stub. -/
theorem c6_query_database_gating_witness :
    (handle_query_database (fun _ _ => .ok {}) false { query := "DROP TABLE users" }).1.is_error = true
    ∧ (handle_query_database (fun _ _ => .ok {}) false { query := "DROP TABLE users" }).2 = []
    ∧ (handle_query_database (fun _ _ => .ok {}) true { query := "DELETE FROM x" }).1.is_error = false
    ∧ (handle_query_database (fun _ _ => .ok {}) true { query := "DELETE FROM x" }).2 = []
    ∧ (handle_query_database (fun _ _ => .ok {}) false { query := "SELECT id FROM t" }).2 =
        [("SELECT id FROM t", [])] := by
  have hA := (c6_query_database_gating (fun _ _ => .ok {}) false { query := "DROP TABLE users" }).1
    (by decide)
  have hB := (c6_query_database_gating (fun _ _ => .ok {}) true { query := "DELETE FROM x" }).2.1
    (by decide) (by decide) rfl
  have hC := (c6_query_database_gating (fun _ _ => .ok {}) false { query := "SELECT id FROM t" }).2.2
    (by decide) (Or.inl (by decide))
  exact ⟨hA.1, hA.2.1, hB.1, hB.2, hC.trans (by decide)⟩

/-- C7: `require_permission` answers "Authentication required" (401) on any
unauthenticated context, whatever the requested permission and whatever the
literal contents of the permission dict, and `PermissionDenied`-style 403
on an authenticated context whose permission lookup is false. -/
theorem c7_require_permission_denies (ctx : AuthContext) (perm : String) :
    (ctx.is_authenticated = false →
      require_permission ctx perm =
        .error { message := "Authentication required", status_code := 401 })
    ∧ (ctx.is_authenticated = true → ctxPermission ctx perm = false →
      require_permission ctx perm =
        .error { message := "Permission '" ++ perm ++ "' required", status_code := 403 }) := by
  constructor
  · intro h; simp [require_permission, h]
  · intro h hp; simp [require_permission, h, hp]

/-- C7 witness: an unauthenticated context whose permission dict literally
grants everything is still refused with "Authentication required"; an
authenticated context lacking `admin` gets the 403 denial. -/
theorem c7_require_permission_witness :
    require_permission
      { is_authenticated := false,
        permissions := some [("read", true), ("write", true), ("admin", true)] } "admin"
      = .error { message := "Authentication required", status_code := 401 }
    ∧ require_permission
      { user_id := some "u1", is_authenticated := true,
        permissions := some [("read", true), ("write", true), ("admin", false)] } "admin"
      = .error { message := "Permission 'admin' required", status_code := 403 } := by
  refine ⟨(c7_require_permission_denies _ "admin").1 rfl, ?_⟩
  have h := (c7_require_permission_denies
    { user_id := some "u1", is_authenticated := true,
      permissions := some [("read", true), ("write", true), ("admin", false)] } "admin").2
    rfl (by decide)
  rw [h]
  have hmsg : "Permission '" ++ "admin" ++ "' required" = "Permission 'admin' required" := by
    decide
  rw [hmsg]

/-- C8 counterexample: an unrecognised method gets error code -32603 (the
`ValueError` falls into the blanket `except`, which labels everything an
internal error), not the claimed -32601. -/
theorem c8_unknown_method_code_not_32601 :
    (handle_request (fun _ => Except.ok "") { id := "1", method := "unknown/method" }).error =
      some { code := -32603, message := "Unknown method: unknown/method",
             data := some "unknown/method" }
    ∧ (-32603 : Int) ≠ -32601 := by
  refine ⟨by decide, by decide⟩

/-- C8 (amended): an unrecognised method yields an error response with code
-32603 (internal error) whose message names the unknown method — the server
never emits -32601 — while input that fails to parse yields -32700. -/
theorem c8_unknown_method_32603_parse_32700
    (env : MCPRequest → Except String String) (req : MCPRequest)
    (parse : String → Except String MCPRequest) (data e : String)
    (hm : knownMethods.contains req.method = false)
    (hp : parse data = .error e) :
    (handle_request env req).error =
      some { code := -32603, message := "Unknown method: " ++ req.method,
             data := some req.method }
    ∧ process_message parse env data =
      { id := "unknown", error := some { code := -32700, message := "Parse error: " ++ e } } := by
  have hm2 : req.method ∉ knownMethods := by
    simpa using hm
  constructor
  · simp [handle_request, hm2]
  · simp [process_message, hp]

/-- C8 witness at a concrete unknown method and a failing parse. -/
theorem c8_error_codes_witness :
    (handle_request (fun _ => Except.ok "") { id := "7", method := "no/method" }).error =
      some { code := -32603, message := "Unknown method: no/method", data := some "no/method" }
    ∧ process_message (fun _ => Except.error "bad json") (fun _ => Except.ok "") "xyz" =
      { id := "unknown",
        error := some { code := -32700, message := "Parse error: bad json" } } := by
  have h := c8_unknown_method_32603_parse_32700 (fun _ => Except.ok "")
    { id := "7", method := "no/method" } (fun _ => Except.error "bad json") "xyz" "bad json"
    (by decide) rfl
  exact ⟨h.1.trans (by decide), h.2.trans (by decide)⟩

/-- C9: whenever the header chain of `_get_client_ip` (x-forwarded-for,
x-real-ip, x-forwarded, x-cluster-client-ip, forwarded-for, forwarded)
resolves to an IP inside a trusted network, `check_rate_limit` returns ok
and leaves the whole security state unchanged — for every transport peer
address and every prior state, including states in which the peer itself is
rate-limited or blocked: rate limiting is bypassed via the
client-controlled header. -/
theorem c9_trusted_header_bypasses_rate_limit (maxReq : Nat) (s : SecState)
    (hs : List (String × String)) (host : Option String) (path : String)
    (now : Int) (ip : String)
    (hdr : headerClientIp headersToCheck hs = some ip)
    (htrust : is_trusted_ip ip = true) :
    check_rate_limit maxReq s { headers := hs, client_host := host, url_path := path } now
      = (.ok, s) := by
  have hip : get_client_ip { headers := hs, client_host := host, url_path := path } = ip := by
    simp [get_client_ip, hdr]
  simp [check_rate_limit, hip, htrust]

/-- C9 witness: a spoofed `x-forwarded-for: 10.0.0.5, 8.8.8.8` makes the
check pass untouched even though the true peer 203.0.113.7 is in the
blocked set. -/
theorem c9_trusted_header_bypass_witness :
    check_rate_limit 100
      { rate_limits := [], blocked_ips := ["203.0.113.7"], security_events := [] }
      { headers := [("x-forwarded-for", "10.0.0.5, 8.8.8.8")],
        client_host := some "203.0.113.7", url_path := "/mcp/tools" } 0
    = (.ok, { rate_limits := [], blocked_ips := ["203.0.113.7"], security_events := [] }) := by
  exact c9_trusted_header_bypasses_rate_limit 100
    { rate_limits := [], blocked_ips := ["203.0.113.7"], security_events := [] }
    [("x-forwarded-for", "10.0.0.5, 8.8.8.8")] (some "203.0.113.7") "/mcp/tools" 0
    "10.0.0.5" (by decide) (by decide)

/-- C10: a token authenticated and cached at `t0` while its `exp` was still
in the future is returned from the cache on a second authentication at `t1`
within the 5-minute TTL even though `exp < t1`: `_get_from_cache` runs
before the expiry check and never inspects the context's `expires_at`, so
the expired token is still accepted. -/
theorem c10_cached_token_accepted_after_expiry
    (decode : String → Except Unit JwtClaims) (cache : TokenCache) (tok : String)
    (t0 t1 : Int) (claims : JwtClaims) (uid : String) (e : Int)
    (htok : tok ≠ "")
    (hmiss : List.find? (fun p => p.1 == tok) cache = none)
    (hlen : List.length cache < 1000)
    (hdec : decode tok = .ok claims)
    (hsub : claims.sub = some uid) (huid : uid ≠ "")
    (hexp : claims.exp = some e) (hezero : e ≠ 0)
    (hfresh : ¬ e < t0)
    (httl : t1 - t0 < cacheTtlSecs)
    (hpast : e < t1) :
    (authenticate_jwt_token decode cache tok t0).1 = some (mkJwtContext claims uid)
    ∧ (authenticate_jwt_token decode
        (authenticate_jwt_token decode cache tok t0).2 tok t1).1
      = some (mkJwtContext claims uid)
    ∧ (mkJwtContext claims uid).is_authenticated = true
    ∧ (mkJwtContext claims uid).expires_at = some e
    ∧ e < t1 := by
  have hany : cache.any (fun p => p.1 == tok) = false := by
    rw [List.any_eq_false]
    intro x hx
    have := List.find?_eq_none.mp hmiss x hx
    simpa using this
  have hfirst : authenticate_jwt_token decode cache tok t0 =
      (some (mkJwtContext claims uid), cache ++ [(tok, mkJwtContext claims uid, t0)]) := by
    simp only [authenticate_jwt_token, get_from_cache, hmiss, htok, if_neg, hdec, hsub]
    simp [htok, huid, hexp, hezero, hfresh, set_cache, cacheInsert, hany]
    omega
  refine ⟨by rw [hfirst], ?_, rfl, by simp [mkJwtContext, hexp, hezero], hpast⟩
  rw [hfirst]
  have hfind : List.find? (fun p => p.1 == tok) (cache ++ [(tok, mkJwtContext claims uid, t0)])
      = some (tok, mkJwtContext claims uid, t0) := by
    rw [find?_append_none _ _ _ hmiss]
    simp
  simp only [authenticate_jwt_token, get_from_cache, hfind, htok, if_neg]
  simp [httl]

/-- C10 witness: token cached at t0 = 0 with exp = 10; re-authenticated at
t1 = 20 (after expiry, within the TTL) it is still returned authenticated. -/
theorem c10_cached_token_witness :
    (authenticate_jwt_token (fun _ => .ok { sub := some "user-1", exp := some 10 })
        ((authenticate_jwt_token (fun _ => .ok { sub := some "user-1", exp := some 10 })
          [] "tok1" 0).2) "tok1" 20).1
      = some (mkJwtContext { sub := some "user-1", exp := some 10 } "user-1")
    ∧ (mkJwtContext { sub := some "user-1", exp := some 10 } "user-1").is_authenticated = true
    ∧ (mkJwtContext { sub := some "user-1", exp := some 10 } "user-1").expires_at = some 10
    ∧ (10 : Int) < 20 := by
  have h := c10_cached_token_accepted_after_expiry
    (fun _ => .ok { sub := some "user-1", exp := some 10 }) [] "tok1" 0 20
    { sub := some "user-1", exp := some 10 } "user-1" 10
    (by decide) rfl (by decide) rfl rfl (by decide) rfl (by decide) (by decide)
    (by decide) (by decide)
  exact ⟨h.2.1, h.2.2.1, h.2.2.2.1, h.2.2.2.2⟩
